import Mathlib

/-!
Verification of the alert-state diffing / debounce engine and the message
renderer of `ow_telegram_notifier.py` (repository messa/ow-telegram-notifier).

The embedding models Python values flowing through the relevant functions:

* JSON-shaped data (the alert objects and everything `json.loads` can
  produce) is the inductive type `Json`; Python strings are `List Char`.
* Fallible Python code is embedded as `Except PyErr`, where `PyErr` models
  the exception classes that can be raised (`NameError`, `KeyError`,
  `AssertionError`, ...).

Embedded functions, all translated from `ow_telegram_notifier.py`:

* `generate_message_texts` (source lines 120-160).  Important fact about
  the source: line 132 reads `closed_alerts = [a for a in old_alerts ...]`
  and line 133 reads `opened_alerts = [a for a in new_alerts ...]`, but the
  function's parameters are named `previous_alerts` / `current_alerts` and
  no global `old_alerts` or `new_alerts` exists in the module, so every
  call that passes the two `assert len(...)` checks on lines 130-131 raises
  `NameError: name 'old_alerts' is not defined` at line 132.  Everything
  from line 132 to the `return` on line 160 is consequently unreachable,
  and the embedding faithfully ends in that `NameError` after modelling
  the reachable prefix (lines 120-131).
* `tg_md2_escape` (lines 163-172) and `alert_text` (lines 175-190),
  together with models of the standard-library `json.loads` / `json.dumps`
  restricted to the constructs this code can meet (see the doc comments on
  `parseJValue` and `json_dumps` for the documented simplifications).
-/

/-- Model of a Python JSON-shaped value: the alert objects handed to the
engine and the renderer, and everything `json.loads` may return.  Python
strings are modelled as `List Char`. -/
inductive Json where
  | null : Json
  | bool (b : Bool) : Json
  | str (s : List Char) : Json
  | num (n : Int) : Json
  | arr (xs : List Json) : Json
  | obj (ps : List (List Char × Json)) : Json

mutual

/-- Decidable structural equality for `Json` (Python `==` on JSON values). -/
def Json.decEq : (a b : Json) → Decidable (a = b)
  | .null, .null => isTrue rfl
  | .null, .bool _ => isFalse (fun h => Json.noConfusion h)
  | .null, .str _ => isFalse (fun h => Json.noConfusion h)
  | .null, .num _ => isFalse (fun h => Json.noConfusion h)
  | .null, .arr _ => isFalse (fun h => Json.noConfusion h)
  | .null, .obj _ => isFalse (fun h => Json.noConfusion h)
  | .bool _, .null => isFalse (fun h => Json.noConfusion h)
  | .bool a, .bool b =>
      match inferInstanceAs (Decidable (a = b)) with
      | isTrue h => isTrue (h ▸ rfl)
      | isFalse h => isFalse (fun e => h (Json.bool.inj e))
  | .bool _, .str _ => isFalse (fun h => Json.noConfusion h)
  | .bool _, .num _ => isFalse (fun h => Json.noConfusion h)
  | .bool _, .arr _ => isFalse (fun h => Json.noConfusion h)
  | .bool _, .obj _ => isFalse (fun h => Json.noConfusion h)
  | .str _, .null => isFalse (fun h => Json.noConfusion h)
  | .str _, .bool _ => isFalse (fun h => Json.noConfusion h)
  | .str a, .str b =>
      match inferInstanceAs (Decidable (a = b)) with
      | isTrue h => isTrue (h ▸ rfl)
      | isFalse h => isFalse (fun e => h (Json.str.inj e))
  | .str _, .num _ => isFalse (fun h => Json.noConfusion h)
  | .str _, .arr _ => isFalse (fun h => Json.noConfusion h)
  | .str _, .obj _ => isFalse (fun h => Json.noConfusion h)
  | .num _, .null => isFalse (fun h => Json.noConfusion h)
  | .num _, .bool _ => isFalse (fun h => Json.noConfusion h)
  | .num _, .str _ => isFalse (fun h => Json.noConfusion h)
  | .num a, .num b =>
      match inferInstanceAs (Decidable (a = b)) with
      | isTrue h => isTrue (h ▸ rfl)
      | isFalse h => isFalse (fun e => h (Json.num.inj e))
  | .num _, .arr _ => isFalse (fun h => Json.noConfusion h)
  | .num _, .obj _ => isFalse (fun h => Json.noConfusion h)
  | .arr _, .null => isFalse (fun h => Json.noConfusion h)
  | .arr _, .bool _ => isFalse (fun h => Json.noConfusion h)
  | .arr _, .str _ => isFalse (fun h => Json.noConfusion h)
  | .arr _, .num _ => isFalse (fun h => Json.noConfusion h)
  | .arr a, .arr b =>
      match Json.decEqList a b with
      | isTrue h => isTrue (h ▸ rfl)
      | isFalse h => isFalse (fun e => h (Json.arr.inj e))
  | .arr _, .obj _ => isFalse (fun h => Json.noConfusion h)
  | .obj _, .null => isFalse (fun h => Json.noConfusion h)
  | .obj _, .bool _ => isFalse (fun h => Json.noConfusion h)
  | .obj _, .str _ => isFalse (fun h => Json.noConfusion h)
  | .obj _, .num _ => isFalse (fun h => Json.noConfusion h)
  | .obj _, .arr _ => isFalse (fun h => Json.noConfusion h)
  | .obj a, .obj b =>
      match Json.decEqPairs a b with
      | isTrue h => isTrue (h ▸ rfl)
      | isFalse h => isFalse (fun e => h (Json.obj.inj e))

/-- Decidable equality for lists of `Json` values. -/
def Json.decEqList : (a b : List Json) → Decidable (a = b)
  | [], [] => isTrue rfl
  | [], _ :: _ => isFalse (fun h => List.noConfusion h)
  | _ :: _, [] => isFalse (fun h => List.noConfusion h)
  | x :: xs, y :: ys =>
      match Json.decEq x y with
      | isTrue h1 =>
          match Json.decEqList xs ys with
          | isTrue h2 => isTrue (h1 ▸ h2 ▸ rfl)
          | isFalse h2 => isFalse (fun e => h2 (List.cons.inj e).2)
      | isFalse h1 => isFalse (fun e => h1 (List.cons.inj e).1)

/-- Decidable equality for lists of key/value pairs of `Json` objects. -/
def Json.decEqPairs : (a b : List (List Char × Json)) → Decidable (a = b)
  | [], [] => isTrue rfl
  | [], _ :: _ => isFalse (fun h => List.noConfusion h)
  | _ :: _, [] => isFalse (fun h => List.noConfusion h)
  | (k1, v1) :: xs, (k2, v2) :: ys =>
      match inferInstanceAs (Decidable (k1 = k2)) with
      | isTrue hk =>
          match Json.decEq v1 v2 with
          | isTrue hv =>
              match Json.decEqPairs xs ys with
              | isTrue h2 => isTrue (hk ▸ hv ▸ h2 ▸ rfl)
              | isFalse h2 => isFalse (fun e => h2 (List.cons.inj e).2)
          | isFalse hv => isFalse (fun e => hv (congrArg Prod.snd (List.cons.inj e).1))
      | isFalse hk => isFalse (fun e => hk (congrArg Prod.fst (List.cons.inj e).1))

end

instance : DecidableEq Json := Json.decEq

/-- Model of the Python exception classes the embedded code can raise.
The constructor `duplicateAlertIdError` models the `DuplicateAlertIdError`
named by the specification's error taxonomy; note that no such class is
defined anywhere in the repository and the code never raises it. -/
inductive PyErr where
  | nameError (name : List Char) : PyErr
  | keyError (key : List Char) : PyErr
  | typeError : PyErr
  | valueError : PyErr
  | attributeError : PyErr
  | assertionError : PyErr
  | duplicateAlertIdError : PyErr
  deriving DecidableEq

/-- Evaluate `f` on each list element left to right, stopping at the first
raised exception: the semantics of a Python comprehension or loop whose
body may raise. -/
def mapE (f : α → Except PyErr β) : List α → Except PyErr (List β)
  | [] => .ok []
  | x :: xs =>
      match f x with
      | .error e => .error e
      | .ok y =>
          match mapE f xs with
          | .error e => .error e
          | .ok ys => .ok (y :: ys)

/-- Python subscription `j[key]` with a string key: returns the value
stored under `key` when `j` is a dict containing it, raises `KeyError`
when the key is missing and `TypeError` when `j` is not a dict. -/
def pyGetItem (j : Json) (key : List Char) : Except PyErr Json :=
  match j with
  | .obj ps =>
      match ps.find? (fun p => p.1 == key) with
      | some p => .ok p.2
      | none => .error (.keyError key)
  | _ => .error .typeError

/-- Membership test of a key in a Python dict modelled as an association
list (first component is the key). -/
def pyDictKeyIn (d : List (Json × Json)) (k : Json) : Bool :=
  d.any (fun p => p.1 == k)

/-- Python dict assignment `d[k] = v` once the key has been hashed:
replace the value of an existing key in place, or append a fresh key at
the end (insertion order).  Python hashes `k` before this point and
raises `TypeError` for an unhashable key; that check is `pyHashable`,
performed by `dictCompByIdAux` at the moment the comprehension inserts,
so only hashable keys ever reach this function. -/
def pyDictSet (d : List (Json × Json)) (k v : Json) : List (Json × Json) :=
  if pyDictKeyIn d k then d.map (fun p => if p.1 == k then (p.1, v) else p)
  else d ++ [(k, v)]

/-- A Python dict built from a sequence of already-hashed key/value
pairs: later pairs with an equal key overwrite earlier ones, so `len` of
the result is the number of distinct keys.  (Used to restate
`dictCompById` once every key is known hashable; the `TypeError` of an
unhashable key is raised by the comprehension model itself.) -/
def pyDictOfPairs (ps : List (Json × Json)) : List (Json × Json) :=
  ps.foldl (fun d p => pyDictSet d p.1 p.2) []

/-- Python hashability of a JSON-shaped value: lists and dicts are
unhashable, so using one as a dict key raises `TypeError`; `None`,
booleans, numbers and strings are hashable. -/
def pyHashable : Json → Bool
  | .arr _ => false
  | .obj _ => false
  | _ => true

/-- Key string `'alertId'` used by the engine. -/
def alertIdKey : List Char := "alertId".toList

/-- One element step of the dict comprehensions on source lines 128-129:
evaluate `a['alertId']` (which may raise `KeyError`/`TypeError`) and hash
the result for insertion, Python raising `TypeError: unhashable type`
when the id is a list or dict. -/
def getHashableId (a : Json) : Except PyErr Json :=
  match pyGetItem a alertIdKey with
  | .error e => .error e
  | .ok k => if pyHashable k then .ok k else .error .typeError

/-- The dict comprehension `{a['alertId']: a for a in alerts}` run from
an accumulator dict: per element, in Python's iteration order, evaluate
the key, hash-check it and insert; the first exception propagates. -/
def dictCompByIdAux : List Json → List (Json × Json) → Except PyErr (List (Json × Json))
  | [], d => .ok d
  | a :: rest, d =>
      match getHashableId a with
      | .error e => .error e
      | .ok k => dictCompByIdAux rest (pyDictSet d k a)

/-- Model of the dict comprehensions `{a['alertId']: a for a in ...}` on
source lines 128-129.  Key equality is structural `Json` equality; Python
additionally identifies numerically equal keys of different types (e.g.
`True == 1`), which can only collapse keys this model keeps distinct —
turning the model's eventual line-132 `NameError` into an earlier
`AssertionError` in Python on such exotic batches.  Every Lean-equal
duplicate is also a Python duplicate, the direction the theorems use, and
no theorem asserts a `NameError` result for non-string ids. -/
def dictCompById (alerts : List Json) : Except PyErr (List (Json × Json)) :=
  dictCompByIdAux alerts []

/-- The dict `notify_aux` that `generate_message_texts` threads between
calls (source line 124-127 initialises it to `{'waiting_alert_ids': {}}`).
The deadline values written by the unreachable part of the function would
be `monotime() + 60`; they are modelled as integers. -/
structure NotifyAux where
  waiting_alert_ids : List (Json × Int)

/-- Name of the undefined variable read on source line 132. -/
def nameOldAlerts : List Char := "old_alerts".toList

/-- Model of `generate_message_texts(previous_alerts, current_alerts,
notify_aux)`, source lines 120-160, with exactly the source's parameter
list (in particular there is no `now`, `wait_duration` or `conf`
parameter; the unreachable lines 147 and 150 would consult the ambient
clock `monotime()` with a hardcoded 60-second wait).

Reachable behaviour, in source order:
* lines 124-127: default-initialise `notify_aux` (no observable effect);
* line 128: build `old_alerts_by_id = {a['alertId']: a for a in
  previous_alerts}` via `dictCompById`: per element, left to right,
  evaluate `a['alertId']` (`KeyError`/`TypeError` possible) and insert it
  as a hashed key (`TypeError` for an unhashable list/dict id), the first
  exception propagating;
* line 129: the same for `current_alerts`;
* line 130: `assert len(old_alerts_by_id) == len(previous_alerts)`;
* line 131: `assert len(new_alerts_by_id) == len(current_alerts)`;
* line 132: `[a for a in old_alerts ...]` reads the name `old_alerts`,
  which is neither a parameter (they are called `previous_alerts` /
  `current_alerts`) nor a module global, so `NameError` is raised and
  nothing further (lines 132-160) can execute. -/
def generate_message_texts (previous_alerts current_alerts : List Json)
    (notify_aux : Option NotifyAux) : Except PyErr (List (List Char) × NotifyAux) :=
  let _notify_aux := notify_aux.getD ⟨[]⟩
  match dictCompById previous_alerts with
  | .error e => .error e
  | .ok old_alerts_by_id =>
      match dictCompById current_alerts with
      | .error e => .error e
      | .ok new_alerts_by_id =>
          if old_alerts_by_id.length = previous_alerts.length then
            if new_alerts_by_id.length = current_alerts.length then
              .error (.nameError nameOldAlerts)
            else .error .assertionError
          else .error .assertionError

/-- The character set escaped by `tg_md2_escape`, in the source's order
(source line 170: the string literal between quotes is
underscore, star, brackets, parens, tilde, backtick, gt, hash, plus,
minus, equals, pipe, braces, dot, bang). -/
def escape_chars : List Char := "_*[]()~`>#+-=|\x7b\x7d.!".toList

/-- Python `s.replace(c, '\\' + c)` for a single character `c`: every
occurrence of `c` is replaced by a backslash followed by `c`. -/
def pyReplaceChar : List Char → Char → List Char
  | [], _ => []
  | x :: s, c =>
      if x = c then '\\' :: c :: pyReplaceChar s c
      else x :: pyReplaceChar s c

/-- Model of `tg_md2_escape` (source lines 163-172): the loop
`for c in '_*[]()~`>#+-=|{}.!': s = s.replace(c, '\\' + c)`.
The `assert isinstance(s, str)` on line 169 is represented by the typed
argument; callers that may pass a non-string go through `asStr`, which
raises the corresponding `AssertionError`. -/
def tg_md2_escape (s : List Char) : List Char :=
  escape_chars.foldl pyReplaceChar s

/-- Coerce a `Json` value to the Python string it must be at this point of
the renderer, raising `err` (the exception the source would raise there)
otherwise. -/
def asStr (j : Json) (err : PyErr) : Except PyErr (List Char) :=
  match j with
  | .str s => .ok s
  | _ => .error err

/-- Python truthiness of a JSON-shaped value (`None`, `False`, `0`, empty
string/list/dict are falsy). -/
def pyTruthy (j : Json) : Bool :=
  match j with
  | .null => false
  | .bool b => b
  | .num n => decide (n ≠ 0)
  | .str s => !s.isEmpty
  | .arr xs => !xs.isEmpty
  | .obj ps => !ps.isEmpty

/-- Model of `alert['lastItemValueJSON'] or '-'` followed by the string
assertion inside `esc`: a falsy value renders as `'-'`; a truthy value
must be a string, otherwise `esc`'s `assert isinstance(s, str)` raises. -/
def lastValueOrDash (j : Json) : Except PyErr (List Char) :=
  if pyTruthy j then asStr j PyErr.assertionError else .ok "-".toList

/-- Python `sep.join(xs)`. -/
def pyJoin (sep : List Char) : List (List Char) → List Char
  | [] => []
  | [x] => x
  | x :: xs => x ++ sep ++ pyJoin sep xs

/-- Argument of `'>'.join(alert['itemPath'])`: a list whose elements must
all be strings; joining a string iterates its characters and joining a
dict iterates its keys; any other value raises `TypeError`. -/
def joinArg (j : Json) : Except PyErr (List (List Char)) :=
  match j with
  | .arr xs => mapE (fun x => asStr x PyErr.typeError) xs
  | .str s => .ok (s.map (fun ch => [ch]))
  | .obj ps => .ok (ps.map Prod.fst)
  | _ => .error .typeError

/-- Whitespace accepted between JSON tokens. -/
def jsonWs : List Char := [' ', '\t', '\n', '\r']

/-- Drop leading JSON whitespace. -/
def skipWs : List Char → List Char
  | [] => []
  | c :: rest => if c ∈ jsonWs then skipWs rest else c :: rest

/-- Value of a hexadecimal digit. -/
def hexVal (c : Char) : Option Nat :=
  if c.isDigit then some (c.toNat - '0'.toNat)
  else if 'a' ≤ c ∧ c ≤ 'f' then some (c.toNat - 'a'.toNat + 10)
  else if 'A' ≤ c ∧ c ≤ 'F' then some (c.toNat - 'A'.toNat + 10)
  else none

/-- Parse the remainder of a JSON string literal (the opening quote has
been consumed), handling the escape sequences of the JSON grammar;
returns the decoded string and the rest of the input. -/
def parseJString : List Char → Option (List Char × List Char)
  | [] => none
  | c :: rest =>
      if c = '"' then some ([], rest)
      else if c = '\\' then
        match rest with
        | [] => none
        | e :: rest2 =>
            if e = '"' ∨ e = '\\' ∨ e = '/' then
              match parseJString rest2 with
              | some (s, r) => some (e :: s, r)
              | none => none
            else if e = 'n' then
              match parseJString rest2 with
              | some (s, r) => some ('\n' :: s, r)
              | none => none
            else if e = 't' then
              match parseJString rest2 with
              | some (s, r) => some ('\t' :: s, r)
              | none => none
            else if e = 'r' then
              match parseJString rest2 with
              | some (s, r) => some ('\r' :: s, r)
              | none => none
            else if e = 'b' then
              match parseJString rest2 with
              | some (s, r) => some (Char.ofNat 8 :: s, r)
              | none => none
            else if e = 'f' then
              match parseJString rest2 with
              | some (s, r) => some (Char.ofNat 12 :: s, r)
              | none => none
            else if e = 'u' then
              match rest2 with
              | h1 :: h2 :: h3 :: h4 :: rest3 =>
                  match hexVal h1, hexVal h2, hexVal h3, hexVal h4 with
                  | some a, some b, some c2, some d =>
                      match parseJString rest3 with
                      | some (s, r) => some (Char.ofNat (((a * 16 + b) * 16 + c2) * 16 + d) :: s, r)
                      | none => none
                  | _, _, _, _ => none
              | _ => none
            else none
      else
        match parseJString rest with
        | some (s, r) => some (c :: s, r)
        | none => none

/-- Consume a maximal run of decimal digits, accumulating their value. -/
def takeDigits : List Char → Nat → (Nat × List Char)
  | [], acc => (acc, [])
  | c :: rest, acc =>
      if c.isDigit then takeDigits rest (acc * 10 + (c.toNat - '0'.toNat))
      else (acc, c :: rest)

/-- Parse a JSON number restricted to (optionally negated) integers. -/
def parseJNumber : List Char → Option (Json × List Char)
  | [] => none
  | '-' :: c :: rest =>
      if c.isDigit then
        match takeDigits rest (c.toNat - '0'.toNat) with
        | (n, r) => some (.num (-(n : Int)), r)
      else none
  | c :: rest =>
      if c.isDigit then
        match takeDigits rest (c.toNat - '0'.toNat) with
        | (n, r) => some (.num (n : Int), r)
      else none

mutual

/-- Fuel-indexed JSON value parser, modelling the standard-library
`json.loads` grammar.  Documented simplifications of the model: numbers
are restricted to integers (no fraction/exponent), `\\u` escapes decode to
the code point without surrogate pairing, unescaped control characters are
accepted inside strings, and duplicate object keys are kept (the embedding
only ever iterates such objects where Python would keep the last wins
semantics; no theorem depends on these corners). -/
def parseJValue : Nat → List Char → Option (Json × List Char)
  | 0, _ => none
  | fuel + 1, s =>
      match skipWs s with
      | [] => none
      | c :: rest =>
          if c = 'n' then
            match rest with
            | 'u' :: 'l' :: 'l' :: r => some (.null, r)
            | _ => none
          else if c = 't' then
            match rest with
            | 'r' :: 'u' :: 'e' :: r => some (.bool true, r)
            | _ => none
          else if c = 'f' then
            match rest with
            | 'a' :: 'l' :: 's' :: 'e' :: r => some (.bool false, r)
            | _ => none
          else if c = '"' then
            match parseJString rest with
            | some (str, r) => some (.str str, r)
            | none => none
          else if c = '[' then
            match skipWs rest with
            | ']' :: r => some (.arr [], r)
            | r2 =>
                match parseJElems fuel r2 with
                | some (xs, r) => some (.arr xs, r)
                | none => none
          else if c = '\x7b' then
            match skipWs rest with
            | '\x7d' :: r => some (.obj [], r)
            | r2 =>
                match parseJMembers fuel r2 with
                | some (ps, r) => some (.obj ps, r)
                | none => none
          else parseJNumber (c :: rest)

/-- Parse one or more comma-separated array elements up to `]`. -/
def parseJElems : Nat → List Char → Option (List Json × List Char)
  | 0, _ => none
  | fuel + 1, s =>
      match parseJValue fuel s with
      | none => none
      | some (v, r) =>
          match skipWs r with
          | ',' :: r2 =>
              match parseJElems fuel r2 with
              | some (vs, r3) => some (v :: vs, r3)
              | none => none
          | ']' :: r2 => some ([v], r2)
          | _ => none

/-- Parse one or more comma-separated object members up to the closing
brace. -/
def parseJMembers : Nat → List Char → Option (List (List Char × Json) × List Char)
  | 0, _ => none
  | fuel + 1, s =>
      match skipWs s with
      | '"' :: r =>
          match parseJString r with
          | some (k, r2) =>
              match skipWs r2 with
              | ':' :: r3 =>
                  match parseJValue fuel r3 with
                  | some (v, r4) =>
                      match skipWs r4 with
                      | ',' :: r5 =>
                          match parseJMembers fuel r5 with
                          | some (ps, r6) => some ((k, v) :: ps, r6)
                          | none => none
                      | '\x7d' :: r5 => some ([(k, v)], r5)
                      | _ => none
                  | none => none
              | _ => none
          | none => none
      | _ => none

end

/-- Model of `json.loads` on a string: parse one JSON value, require only
whitespace after it, raise `ValueError` (`json.JSONDecodeError`) on any
parse failure.  The fuel `2 * length + 2` dominates the recursion depth,
which consumes at least one input character per nesting level. -/
def json_loads (s : List Char) : Except PyErr Json :=
  match parseJValue (2 * s.length + 2) s with
  | some (v, r) => if (skipWs r).isEmpty then .ok v else .error .valueError
  | none => .error .valueError

/-- Escaping of string contents performed by the `json.dumps` model:
quotes and backslashes are escaped.  (The stdlib additionally escapes
control and non-ASCII characters; no theorem depends on that corner.) -/
def dumpStr (s : List Char) : List Char :=
  s.foldr (fun ch acc => if ch = '"' ∨ ch = '\\' then '\\' :: ch :: acc else ch :: acc) []

mutual

/-- Model of the standard-library `json.dumps` with default separators
`', '` and `': '`, used by the renderer's fallback path (source line
190). -/
def json_dumps : Json → List Char
  | .null => "null".toList
  | .bool true => "true".toList
  | .bool false => "false".toList
  | .num n => (toString n).toList
  | .str s => '"' :: (dumpStr s ++ ['"'])
  | .arr xs => '[' :: (dumpsArr xs ++ [']'])
  | .obj ps => '\x7b' :: (dumpsObj ps ++ ['\x7d'])

/-- Serialise array elements, comma-separated. -/
def dumpsArr : List Json → List Char
  | [] => []
  | [x] => json_dumps x
  | x :: xs => json_dumps x ++ ", ".toList ++ dumpsArr xs

/-- Serialise object members, comma-separated. -/
def dumpsObj : List (List Char × Json) → List Char
  | [] => []
  | [(k, v)] => '"' :: (dumpStr k ++ ['"']) ++ ": ".toList ++ json_dumps v
  | (k, v) :: ps => '"' :: (dumpStr k ++ ['"']) ++ ": ".toList ++ json_dumps v ++ ", ".toList ++ dumpsObj ps

end

/-- The data `alert_text` interpolates into its format string once every
fallible step of source lines 181-183 has succeeded. -/
structure RenderFields where
  label_items : List (List Char × List Char)
  alert_type : List Char
  item_path : List (List Char)
  last_value : List Char
  alert_id : List Char

/-- The fallible part of `alert_text` (the body of the `try:` block,
source lines 181-187): every subscription, the `json.loads` of
`stream.labelJSON`, the `.items()` iteration and every string assertion
inside `esc` may raise; the exact exception raised first is immaterial
because the `except Exception` handler treats them all alike. -/
def extract_fields (alert : Json) : Except PyErr RenderFields := do
  let stream ← pyGetItem alert ("stream".toList)
  let labelJSON ← pyGetItem stream ("labelJSON".toList)
  let labelStr ← asStr labelJSON PyErr.typeError
  let label ← json_loads labelStr
  let items ←
    match label with
    | .obj ps => Except.ok ps
    | _ => Except.error PyErr.attributeError
  let label_items ← mapE (fun p => (asStr p.2 PyErr.assertionError).map (fun vs => (p.1, vs))) items
  let ipath ← pyGetItem alert ("itemPath".toList)
  let segs ← joinArg ipath
  let atype ← pyGetItem alert ("alertType".toList)
  let atype_s ← asStr atype PyErr.assertionError
  let lastv ← pyGetItem alert ("lastItemValueJSON".toList)
  let lastv_s ← lastValueOrDash lastv
  let aid ← pyGetItem alert ("alertId".toList)
  let aid_s ← asStr aid PyErr.assertionError
  pure ⟨label_items, atype_s, segs, lastv_s, aid_s⟩

/-- The string built by the `return` of source lines 182-187 from the
extracted fields: `' '.join` of `f"{esc(k)}{esc('=')}`{esc(v)}`"` over the
label items, then `f" *{esc(alertType)}* {esc(path)} {esc(lastValue)}
{esc('(')}`{esc(alertId)}`{esc(')')}"`, where `path` is
`'>'.join(itemPath)`. -/
def format_line (f : RenderFields) : List Char :=
  pyJoin " ".toList (f.label_items.map (fun kv =>
      tg_md2_escape kv.1 ++ tg_md2_escape "=".toList ++ "`".toList
        ++ tg_md2_escape kv.2 ++ "`".toList))
    ++ " *".toList ++ tg_md2_escape f.alert_type ++ "* ".toList
    ++ tg_md2_escape (pyJoin ">".toList f.item_path) ++ " ".toList
    ++ tg_md2_escape f.last_value ++ " ".toList
    ++ tg_md2_escape "(".toList ++ "`".toList ++ tg_md2_escape f.alert_id
    ++ "`".toList ++ tg_md2_escape ")".toList

/-- The whole `try:` block of `alert_text`: extract the fields, then build
the formatted line (pure, so commuting it past the extraction is
behaviour-preserving). -/
def build_alert_line (alert : Json) : Except PyErr (List Char) :=
  (extract_fields alert).map format_line

/-- Model of `alert_text` (source lines 175-190): the rendered line on
success, and on any exception the escaped raw `json.dumps` of the alert
(the `except` handler additionally logs, which has no observable effect
on the returned string). -/
def alert_text (alert : Json) : List Char :=
  match build_alert_line alert with
  | .ok line => line
  | .error _ => tg_md2_escape (json_dumps alert)

/-- The watchdog alert object used by both tests in
`test_ow_telegram_notifier.py` (lines 29-38 and 52-61). -/
def watchdogAlert : Json :=
  .obj [
    ("id".toList, .str "QWxlcnQ6aHJlMnBiMGY=".toList),
    ("alertId".toList, .str "hre2pb0f".toList),
    ("alertType".toList, .str "watchdog".toList),
    ("streamId".toList, .str "3scxxinu".toList),
    ("stream".toList, .obj [("labelJSON".toList, .str "\x7b\"agent\":\"system\",\"host\":\"example.com\"\x7d".toList)]),
    ("itemPath".toList, .arr [.str "watchdog".toList]),
    ("lastItemUnit".toList, .null),
    ("lastItemValueJSON".toList, .null)
  ]

/-- A second well-formed alert with a different `alertId`, for
multi-alert inputs. -/
def secondAlert : Json :=
  .obj [
    ("id".toList, .str "QWxlcnQ6YWJjZDEyMzQ=".toList),
    ("alertId".toList, .str "abcd1234".toList),
    ("alertType".toList, .str "check".toList),
    ("streamId".toList, .str "5qwxyz99".toList),
    ("stream".toList, .obj [("labelJSON".toList, .str "\x7b\"host\":\"other.example.com\"\x7d".toList)]),
    ("itemPath".toList, .arr [.str "load".toList]),
    ("lastItemUnit".toList, .null),
    ("lastItemValueJSON".toList, .str "1.5".toList)
  ]

/-- An alert whose `stream.labelJSON` is not valid JSON, driving
`alert_text` into its fallback branch. -/
def malformedAlert : Json :=
  .obj [
    ("alertId".toList, .str "badbadba".toList),
    ("alertType".toList, .str "watchdog".toList),
    ("stream".toList, .obj [("labelJSON".toList, .str "not json".toList)]),
    ("itemPath".toList, .arr [.str "watchdog".toList]),
    ("lastItemValueJSON".toList, .null)
  ]

/-- A string `s` contains no unescaped occurrence of `c`: every position
holding `c` is immediately preceded by a backslash. -/
def NoUnesc (c : Char) (s : List Char) : Prop :=
  ∀ i, s.get? i = some c → 0 < i ∧ s.get? (i - 1) = some '\\'

/-- Grammar of strings in which `c` only ever occurs as the second half of
a two-character backslash escape. -/
inductive EscSeq (c : Char) : List Char → Prop
  | nil : EscSeq c []
  | other {x : Char} {s : List Char} : x ≠ c → EscSeq c s → EscSeq c (x :: s)
  | esc {s : List Char} : EscSeq c s → EscSeq c ('\\' :: c :: s)

theorem escSeq_append {c : Char} {s t : List Char} (hs : EscSeq c s) (ht : EscSeq c t) :
    EscSeq c (s ++ t) := by
  induction hs with
  | nil => simpa using ht
  | other hx _ ih => exact EscSeq.other hx ih
  | esc _ ih => exact EscSeq.esc ih

theorem escSeq_of_all_ne {c : Char} : ∀ {s : List Char}, (∀ x ∈ s, x ≠ c) → EscSeq c s
  | [], _ => EscSeq.nil
  | x :: s, h =>
      EscSeq.other (h x (List.mem_cons_self x s))
        (escSeq_of_all_ne (fun y hy => h y (List.mem_cons_of_mem x hy)))

theorem escSeq_pyReplaceChar_self {c : Char} (hc : c ≠ '\\') :
    ∀ s : List Char, EscSeq c (pyReplaceChar s c)
  | [] => EscSeq.nil
  | x :: s => by
      unfold pyReplaceChar
      by_cases hx : x = c
      · rw [if_pos hx]
        exact EscSeq.esc (escSeq_pyReplaceChar_self hc s)
      · rw [if_neg hx]
        exact EscSeq.other hx (escSeq_pyReplaceChar_self hc s)

theorem escSeq_pyReplaceChar_other {c d : Char} (hdc : d ≠ c) (hcb : c ≠ '\\')
    (hdb : d ≠ '\\') : ∀ {s : List Char}, EscSeq c s → EscSeq c (pyReplaceChar s d) := by
  intro s hs
  induction hs with
  | nil => exact EscSeq.nil
  | @other x s' hx _ ih =>
      unfold pyReplaceChar
      by_cases hxd : x = d
      · rw [if_pos hxd]
        exact EscSeq.other (Ne.symm hcb) (EscSeq.other hdc ih)
      · rw [if_neg hxd]
        exact EscSeq.other hx ih
  | @esc s' _ ih =>
      simp only [pyReplaceChar]
      rw [if_neg (show ¬('\\' = d) from fun e => hdb (Eq.symm e)),
        if_neg (show ¬(c = d) from fun e => hdc (Eq.symm e))]
      exact EscSeq.esc ih

theorem escSeq_foldl_of_all {c : Char} :
    ∀ (l : List Char) (s : List Char), EscSeq c s → c ∉ l → '\\' ∉ l → c ≠ '\\' →
      EscSeq c (l.foldl pyReplaceChar s)
  | [], _, hs, _, _, _ => hs
  | d :: l, s, hs, hcl, hbl, hcb => by
      simp only [List.foldl_cons]
      have hdc : d ≠ c := fun e => hcl (e ▸ List.mem_cons_self d l)
      have hdb : d ≠ '\\' := fun e => hbl (e ▸ List.mem_cons_self d l)
      exact escSeq_foldl_of_all l _ (escSeq_pyReplaceChar_other hdc hcb hdb hs)
        (fun h => hcl (List.mem_cons_of_mem d h))
        (fun h => hbl (List.mem_cons_of_mem d h)) hcb

theorem escSeq_foldl_of_mem {c : Char} :
    ∀ (l : List Char) (s : List Char), c ∈ l → l.Nodup → '\\' ∉ l →
      EscSeq c (l.foldl pyReplaceChar s)
  | [], _, hc, _, _ => absurd hc (List.not_mem_nil c)
  | d :: l, s, hc, hnd, hb => by
      simp only [List.foldl_cons]
      have hcb : c ≠ '\\' := fun e => hb (e ▸ hc)
      by_cases hcd : c = d
      · subst hcd
        exact escSeq_foldl_of_all l _ (escSeq_pyReplaceChar_self hcb s)
          (List.nodup_cons.mp hnd).1
          (fun h => hb (List.mem_cons_of_mem c h)) hcb
      · exact escSeq_foldl_of_mem l _ ((List.mem_cons.mp hc).resolve_left hcd)
          (List.nodup_cons.mp hnd).2 (fun h => hb (List.mem_cons_of_mem d h))

/-- Every character of the escape set occurs only backslash-escaped in the
output of `tg_md2_escape`. -/
theorem escSeq_tg_md2_escape {c : Char} (hc : c ∈ escape_chars) (s : List Char) :
    EscSeq c (tg_md2_escape s) :=
  escSeq_foldl_of_mem escape_chars s hc (by decide) (by decide)

theorem noUnesc_of_escSeq {c : Char} (hcb : c ≠ '\\') :
    ∀ {s : List Char}, EscSeq c s → NoUnesc c s := by
  intro s h
  induction h with
  | nil =>
      intro i hget
      simp [List.get?] at hget
  | other hx _ ih =>
      intro i hget
      cases i with
      | zero =>
          rw [List.get?_cons_zero] at hget
          exact absurd (Option.some.inj hget) hx
      | succ n =>
          rw [List.get?_cons_succ] at hget
          obtain ⟨hpos, hprev⟩ := ih n hget
          refine ⟨Nat.succ_pos n, ?_⟩
          cases n with
          | zero => exact absurd hpos (lt_irrefl 0)
          | succ m =>
              simp only [Nat.succ_sub_one] at hprev ⊢
              rw [List.get?_cons_succ]
              simpa using hprev
  | esc _ ih =>
      intro i hget
      match i with
      | 0 =>
          rw [List.get?_cons_zero] at hget
          exact absurd (Option.some.inj hget).symm hcb
      | 1 =>
          exact ⟨Nat.one_pos, rfl⟩
      | Nat.succ (Nat.succ n) =>
          rw [List.get?_cons_succ, List.get?_cons_succ] at hget
          obtain ⟨hpos, hprev⟩ := ih n hget
          refine ⟨by omega, ?_⟩
          cases n with
          | zero => exact absurd hpos (lt_irrefl 0)
          | succ m =>
              simp only [Nat.succ_sub_one] at hprev ⊢
              rw [List.get?_cons_succ, List.get?_cons_succ]
              simpa using hprev

theorem escSeq_pyJoin {c : Char} {sep : List Char} (hsep : EscSeq c sep) :
    ∀ {ps : List (List Char)}, (∀ p ∈ ps, EscSeq c p) → EscSeq c (pyJoin sep ps)
  | [], _ => EscSeq.nil
  | [x], h => by
      simp only [pyJoin]
      exact h x (List.mem_cons_self x [])
  | x :: y :: ps, h => by
      simp only [pyJoin]
      exact escSeq_append (escSeq_append (h x (List.mem_cons_self x _)) hsep)
        (escSeq_pyJoin hsep (fun p hp => h p (List.mem_cons_of_mem x hp)))

/-- Every fragment interpolated by the renderer's format string passes
through `tg_md2_escape`, so a set character that does not occur in the
literal glue (spaces, the emphasis stars and the code backticks) occurs
only escaped in the formatted line, whatever the field contents are. -/
theorem escSeq_format_line {c : Char} (hc : c ∈ escape_chars)
    (h1 : ∀ x ∈ " ".toList, x ≠ c) (h2 : ∀ x ∈ " *".toList, x ≠ c)
    (h3 : ∀ x ∈ "* ".toList, x ≠ c) (h4 : ∀ x ∈ "`".toList, x ≠ c)
    (f : RenderFields) : EscSeq c (format_line f) := by
  unfold format_line
  have hjoin : EscSeq c (pyJoin " ".toList (f.label_items.map (fun kv =>
      tg_md2_escape kv.1 ++ tg_md2_escape "=".toList ++ "`".toList
        ++ tg_md2_escape kv.2 ++ "`".toList))) := by
    apply escSeq_pyJoin (escSeq_of_all_ne h1)
    intro p hp
    obtain ⟨kv, _, rfl⟩ := List.mem_map.mp hp
    exact escSeq_append (escSeq_append (escSeq_append (escSeq_append
      (escSeq_tg_md2_escape hc _) (escSeq_tg_md2_escape hc _)) (escSeq_of_all_ne h4))
      (escSeq_tg_md2_escape hc _)) (escSeq_of_all_ne h4)
  refine escSeq_append ?_ (escSeq_tg_md2_escape hc _)
  refine escSeq_append ?_ (escSeq_of_all_ne h4)
  refine escSeq_append ?_ (escSeq_tg_md2_escape hc _)
  refine escSeq_append ?_ (escSeq_of_all_ne h4)
  refine escSeq_append ?_ (escSeq_tg_md2_escape hc _)
  refine escSeq_append ?_ (escSeq_of_all_ne h1)
  refine escSeq_append ?_ (escSeq_tg_md2_escape hc _)
  refine escSeq_append ?_ (escSeq_of_all_ne h1)
  refine escSeq_append ?_ (escSeq_tg_md2_escape hc _)
  refine escSeq_append ?_ (escSeq_of_all_ne h3)
  refine escSeq_append ?_ (escSeq_tg_md2_escape hc _)
  refine escSeq_append ?_ (escSeq_of_all_ne h2)
  exact hjoin

/-- C7.  Renderer total with fallback: `alert_text` returns a string for
every alert object — its result type is `List Char`, not `Except`, because
the source's `try`/`except Exception` handler (lines 180-190) catches
every exception the line-building code can raise — and whenever building
the formatted line fails, the returned string is the escaped raw JSON
dump of the alert. -/
theorem c7_alert_text_total_with_fallback (a : Json)
    (h : (build_alert_line a).isOk = false) :
    alert_text a = tg_md2_escape (json_dumps a) := by
  unfold alert_text
  split
  next line hline =>
    rw [hline] at h
    simp [Except.isOk, Except.toBool] at h
  next e herr => rfl

/-- Witness for C7 at a concrete malformed alert: its `stream.labelJSON`
is not valid JSON, so building the line fails and `alert_text` returns
the escaped dump. -/
theorem c7_witness_malformed_label :
    (build_alert_line malformedAlert).isOk = false ∧
      alert_text malformedAlert = tg_md2_escape (json_dumps malformedAlert) :=
  ⟨rfl, c7_alert_text_total_with_fallback malformedAlert rfl⟩

/-- C8.  Markup escaping: `tg_md2_escape` backslash-precedes every
occurrence of each character of the set `_*[]()~`>#+-=|{}.!` (first
conjunct, for the full set), and `alert_text` applies it to every
interpolated fragment, so the rendered line — whatever the alert contains,
in particular when a label value contains `.`, `-` or `(` — has no
unescaped occurrence of `.`, `-` or `(` (second conjunct). -/
theorem c8_escaping_complete :
    (∀ (s : List Char) (c : Char), c ∈ escape_chars → NoUnesc c (tg_md2_escape s)) ∧
    (∀ (a : Json) (c : Char), c = '.' ∨ c = '-' ∨ c = '(' → NoUnesc c (alert_text a)) := by
  have hbs : ('\\' : Char) ∉ escape_chars := by decide
  constructor
  · intro s c hc
    exact noUnesc_of_escSeq (fun e => hbs (e ▸ hc)) (escSeq_tg_md2_escape hc s)
  · intro a c hset
    have hce : c ∈ escape_chars := by rcases hset with rfl | rfl | rfl <;> decide
    apply noUnesc_of_escSeq (fun e => hbs (e ▸ hce))
    unfold alert_text
    split
    next line hline =>
      unfold build_alert_line at hline
      cases he : extract_fields a with
      | error e2 =>
          rw [he] at hline
          exact absurd hline (by simp [Except.map])
      | ok f =>
          rw [he] at hline
          simp only [Except.map] at hline
          cases hline
          rcases hset with rfl | rfl | rfl <;>
            exact escSeq_format_line hce (by decide) (by decide) (by decide) (by decide) f
    next e herr => exact escSeq_tg_md2_escape hce _

/-- Witness for C8 at concrete inputs: a dotted input string for the
escape function, and the full watchdog alert of the test suite for the
renderer. -/
theorem c8_witness_concrete :
    NoUnesc '.' (tg_md2_escape "example.com".toList) ∧
      NoUnesc '(' (alert_text watchdogAlert) :=
  ⟨c8_escaping_complete.1 "example.com".toList '.' (by decide),
    c8_escaping_complete.2 watchdogAlert '(' (Or.inr (Or.inr rfl))⟩

theorem length_pyDictSet (d : List (Json × Json)) (k v : Json) :
    (pyDictSet d k v).length = if pyDictKeyIn d k then d.length else d.length + 1 := by
  unfold pyDictSet
  split
  next h => simp
  next h => simp

theorem pyDictKeyIn_pyDictSet_mono {d : List (Json × Json)} {k' : Json} (k v : Json)
    (h : pyDictKeyIn d k' = true) : pyDictKeyIn (pyDictSet d k v) k' = true := by
  unfold pyDictSet
  split
  · unfold pyDictKeyIn at h ⊢
    obtain ⟨p, hp, he⟩ := List.any_eq_true.mp h
    refine List.any_eq_true.mpr ⟨(if p.1 == k then (p.1, v) else p), List.mem_map.mpr ⟨p, hp, rfl⟩, ?_⟩
    by_cases hk : p.1 == k
    · simpa [hk] using he
    · simpa [hk] using he
  · unfold pyDictKeyIn at h ⊢
    rw [List.any_append, h]
    rfl

theorem pyDictKeyIn_pyDictSet_self (d : List (Json × Json)) (k v : Json) :
    pyDictKeyIn (pyDictSet d k v) k = true := by
  cases h : pyDictKeyIn d k with
  | true => exact pyDictKeyIn_pyDictSet_mono k v h
  | false =>
      unfold pyDictSet
      rw [if_neg (by simp [h])]
      unfold pyDictKeyIn
      rw [List.any_append]
      simp

theorem dictFold_length_le :
    ∀ (ps d : List (Json × Json)),
      (ps.foldl (fun d p => pyDictSet d p.1 p.2) d).length ≤ d.length + ps.length
  | [], d => by simp
  | p :: ps, d => by
      simp only [List.foldl_cons, List.length_cons]
      have h1 := dictFold_length_le ps (pyDictSet d p.1 p.2)
      have h2 : (pyDictSet d p.1 p.2).length ≤ d.length + 1 := by
        rw [length_pyDictSet]; split <;> omega
      omega

theorem dictFold_length_lt_of_hit :
    ∀ (ps d : List (Json × Json)), (∃ p ∈ ps, pyDictKeyIn d p.1 = true) →
      (ps.foldl (fun d p => pyDictSet d p.1 p.2) d).length < d.length + ps.length
  | [], _, h => by simp at h
  | p :: ps, d, h => by
      simp only [List.foldl_cons, List.length_cons]
      obtain ⟨q, hq, hkey⟩ := h
      rcases List.mem_cons.mp hq with rfl | hq'
      · have hlen : (pyDictSet d q.1 q.2).length = d.length := by
          rw [length_pyDictSet, if_pos hkey]
        have h1 := dictFold_length_le ps (pyDictSet d q.1 q.2)
        omega
      · have hkey' : pyDictKeyIn (pyDictSet d p.1 p.2) q.1 = true :=
          pyDictKeyIn_pyDictSet_mono p.1 p.2 hkey
        have h1 := dictFold_length_lt_of_hit ps (pyDictSet d p.1 p.2) ⟨q, hq', hkey'⟩
        have h2 : (pyDictSet d p.1 p.2).length ≤ d.length + 1 := by
          rw [length_pyDictSet]; split <;> omega
        omega

theorem dictFold_length_lt_of_dup :
    ∀ (ps d : List (Json × Json)), ¬ (ps.map Prod.fst).Nodup →
      (ps.foldl (fun d p => pyDictSet d p.1 p.2) d).length < d.length + ps.length
  | [], _, h => by simp at h
  | p :: ps, d, h => by
      rw [List.map_cons] at h
      simp only [List.foldl_cons, List.length_cons]
      by_cases hmem : p.1 ∈ ps.map Prod.fst
      · obtain ⟨q, hq, hfst⟩ := List.mem_map.mp hmem
        have hkey : pyDictKeyIn (pyDictSet d p.1 p.2) q.1 = true := by
          rw [hfst]; exact pyDictKeyIn_pyDictSet_self d p.1 p.2
        have h1 := dictFold_length_lt_of_hit ps (pyDictSet d p.1 p.2) ⟨q, hq, hkey⟩
        have h2 : (pyDictSet d p.1 p.2).length ≤ d.length + 1 := by
          rw [length_pyDictSet]; split <;> omega
        omega
      · have hnd : ¬ (ps.map Prod.fst).Nodup :=
          fun hnd => h (List.nodup_cons.mpr ⟨hmem, hnd⟩)
        have h1 := dictFold_length_lt_of_dup ps (pyDictSet d p.1 p.2) hnd
        have h2 : (pyDictSet d p.1 p.2).length ≤ d.length + 1 := by
          rw [length_pyDictSet]; split <;> omega
        omega

theorem dictFold_length_of_fresh :
    ∀ (ps d : List (Json × Json)), (ps.map Prod.fst).Nodup →
      (∀ p ∈ ps, pyDictKeyIn d p.1 = false) →
      (ps.foldl (fun d p => pyDictSet d p.1 p.2) d).length = d.length + ps.length
  | [], d, _, _ => by simp
  | p :: ps, d, hnd, hfresh => by
      simp only [List.foldl_cons, List.length_cons]
      rw [List.map_cons, List.nodup_cons] at hnd
      have hp0 : pyDictKeyIn d p.1 = false := hfresh p (List.mem_cons_self p ps)
      have hlen : (pyDictSet d p.1 p.2).length = d.length + 1 := by
        rw [length_pyDictSet, if_neg (by simp [hp0])]
      have hfresh' : ∀ q ∈ ps, pyDictKeyIn (pyDictSet d p.1 p.2) q.1 = false := by
        intro q hq
        unfold pyDictSet
        rw [if_neg (by simp [hp0])]
        have h1 : pyDictKeyIn d q.1 = false := hfresh q (List.mem_cons_of_mem p hq)
        have h2 : p.1 ≠ q.1 := fun e => hnd.1 (e ▸ List.mem_map.mpr ⟨q, hq, rfl⟩)
        unfold pyDictKeyIn at h1 ⊢
        rw [List.any_append, h1]
        simp [h2]
      have h3 := dictFold_length_of_fresh ps (pyDictSet d p.1 p.2) hnd.2 hfresh'
      omega

theorem pyDictOfPairs_length_lt_of_dup (ps : List (Json × Json))
    (h : ¬ (ps.map Prod.fst).Nodup) : (pyDictOfPairs ps).length < ps.length := by
  unfold pyDictOfPairs
  have := dictFold_length_lt_of_dup ps [] h
  simpa using this

theorem pyDictOfPairs_length_of_nodup (ps : List (Json × Json))
    (h : (ps.map Prod.fst).Nodup) : (pyDictOfPairs ps).length = ps.length := by
  unfold pyDictOfPairs
  have := dictFold_length_of_fresh ps [] h (fun p _ => rfl)
  simpa using this

theorem mapE_ok_length {f : α → Except PyErr β} :
    ∀ {l : List α} {res : List β}, mapE f l = .ok res → res.length = l.length
  | [], res, h => by
      simp only [mapE] at h
      cases h
      rfl
  | x :: l, res, h => by
      simp only [mapE] at h
      cases hx : f x with
      | error e => rw [hx] at h; exact absurd h (by simp)
      | ok y =>
          rw [hx] at h
          cases hl : mapE f l with
          | error e => rw [hl] at h; exact absurd h (by simp)
          | ok ys =>
              rw [hl] at h
              cases h
              simp [mapE_ok_length hl]

theorem dictCompByIdAux_eq_foldl :
    ∀ {alerts ids : List Json}, mapE getHashableId alerts = .ok ids →
      ∀ d, dictCompByIdAux alerts d =
        .ok ((ids.zip alerts).foldl (fun d p => pyDictSet d p.1 p.2) d)
  | [], ids, h, d => by
      simp only [mapE] at h
      cases h
      simp [dictCompByIdAux]
  | a :: rest, ids, h, d => by
      simp only [mapE] at h
      cases hx : getHashableId a with
      | error e => rw [hx] at h; exact absurd h (by simp)
      | ok k =>
          rw [hx] at h
          cases hl : mapE getHashableId rest with
          | error e => rw [hl] at h; exact absurd h (by simp)
          | ok ks =>
              rw [hl] at h
              cases h
              simp only [dictCompByIdAux, hx, List.zip_cons_cons, List.foldl_cons]
              exact dictCompByIdAux_eq_foldl hl (pyDictSet d k a)

/-- When every id of the batch extracts and hashes successfully, the dict
comprehension model is the plain fold of insertions over the id/alert
pairs. -/
theorem dictCompById_ok {alerts ids : List Json}
    (h : mapE getHashableId alerts = .ok ids) :
    dictCompById alerts = .ok (pyDictOfPairs (ids.zip alerts)) := by
  unfold dictCompById pyDictOfPairs
  exact dictCompByIdAux_eq_foldl h []

/-- C5 (amended).  Duplicate-id rejection as the code actually performs
it: whenever evaluating and hashing `a['alertId']` succeeds for every
alert of both inputs (an unhashable list/dict id would instead raise
`TypeError` inside the line-128/129 dict comprehensions) and either
extracted id list contains a repeat, the call fails — with Python's
`AssertionError` from the uniqueness asserts on source lines 130-131
(the dict comprehension collapses equal keys, making `len(dict)` smaller
than `len(list)`), not with a `DuplicateAlertIdError`, a class the code
never defines — so duplicate ids are never silently merged into a
successful cycle. -/
theorem c5_amended_duplicate_ids_assertionerror
    (prev curr : List Json) (aux : Option NotifyAux) (pids cids : List Json)
    (hp : mapE getHashableId prev = .ok pids)
    (hc : mapE getHashableId curr = .ok cids)
    (hdup : ¬ pids.Nodup ∨ ¬ cids.Nodup) :
    generate_message_texts prev curr aux = .error PyErr.assertionError := by
  have hplen : pids.length = prev.length := mapE_ok_length hp
  have hclen : cids.length = curr.length := mapE_ok_length hc
  have hfp : (pids.zip prev).map Prod.fst = pids :=
    List.map_fst_zip pids prev (le_of_eq hplen)
  have hfc : (cids.zip curr).map Prod.fst = cids :=
    List.map_fst_zip cids curr (le_of_eq hclen)
  unfold generate_message_texts
  rw [dictCompById_ok hp, dictCompById_ok hc]
  show (if (pyDictOfPairs (pids.zip prev)).length = prev.length then
      if (pyDictOfPairs (cids.zip curr)).length = curr.length then
        Except.error (PyErr.nameError nameOldAlerts)
      else Except.error PyErr.assertionError
    else Except.error PyErr.assertionError) = Except.error PyErr.assertionError
  by_cases hnp : pids.Nodup
  · have hnc : ¬ cids.Nodup := hdup.resolve_left (not_not.mpr hnp)
    have h1 : (pyDictOfPairs (pids.zip prev)).length = prev.length := by
      rw [pyDictOfPairs_length_of_nodup _ (by rw [hfp]; exact hnp)]
      simp [hplen]
    have h2 : (pyDictOfPairs (cids.zip curr)).length < curr.length := by
      have hlt := pyDictOfPairs_length_lt_of_dup _ (by rw [hfc]; exact hnc)
      have hz : (cids.zip curr).length = curr.length := by simp [hclen]
      omega
    rw [if_pos h1, if_neg (by omega)]
  · have h1 : (pyDictOfPairs (pids.zip prev)).length < prev.length := by
      have hlt := pyDictOfPairs_length_lt_of_dup _ (by rw [hfp]; exact hnp)
      have hz : (pids.zip prev).length = prev.length := by simp [hplen]
      omega
    rw [if_neg (by omega)]

/-- C5 witness: a concrete call whose current input repeats the watchdog
alert, discharging the hypotheses of the amended duplicate-id theorem. -/
theorem c5_amended_witness :
    generate_message_texts [] [watchdogAlert, watchdogAlert] none =
      .error PyErr.assertionError :=
  c5_amended_duplicate_ids_assertionerror [] [watchdogAlert, watchdogAlert] none
    [] [Json.str "hre2pb0f".toList, Json.str "hre2pb0f".toList] rfl rfl
    (Or.inr (fun h => (List.nodup_cons.mp h).1 (List.mem_singleton.mpr rfl)))

/-- C5 counterexample: at the concrete input whose previous batch repeats
the watchdog alert, the call fails with `AssertionError`, not with the
`DuplicateAlertIdError` the claim names (no such class exists in the
code). -/
theorem c5_counterexample_assertion_not_duplicate_error :
    generate_message_texts [watchdogAlert, watchdogAlert] [] none =
        .error PyErr.assertionError ∧
      generate_message_texts [watchdogAlert, watchdogAlert] [] none ≠
        .error PyErr.duplicateAlertIdError := by
  refine ⟨rfl, ?_⟩
  intro h
  rw [show generate_message_texts [watchdogAlert, watchdogAlert] [] none =
    .error PyErr.assertionError from rfl] at h
  exact absurd (Except.error.inj h) (by decide)

/-- C1.  The grace-window walkthrough cannot even start on the code as
written: the very first step (previous empty, current the single
watchdog alert, no carried state) raises `NameError` for the undefined
name `old_alerts` at source line 132 instead of returning the expected
empty message list — and the source function accepts no `now` or
`wait_duration` argument at all. -/
theorem c1_grace_walkthrough_first_call_raises :
    generate_message_texts [] [watchdogAlert] none =
      .error (PyErr.nameError nameOldAlerts) := rfl

/-- C2.  The flap-suppression path is unreachable: the closing tick
(alert present before, absent now) raises the same `NameError` before any
closed-alert classification runs; moreover the pending lookup it would
then perform reads the misspelled key `'alerId'` (source line 139). -/
theorem c2_flap_close_call_raises :
    generate_message_texts [watchdogAlert] [] none =
      .error (PyErr.nameError nameOldAlerts) := rfl

/-- C3.  The pending-subset invariant is never established because no
call to the engine returns a state at all: every call raises (the
`NameError` of line 132, or `KeyError`/`TypeError`/`AssertionError` from
the comprehensions and asserts of lines 128-131 on malformed, unhashable
or duplicated input). -/
theorem c3_engine_never_returns_state (prev curr : List Json) (aux : Option NotifyAux) :
    (generate_message_texts prev curr aux).isOk = false := by
  unfold generate_message_texts
  cases hp : dictCompById prev with
  | error e => simp [hp, Except.isOk, Except.toBool]
  | ok old_by =>
      cases hc : dictCompById curr with
      | error e => simp [hp, hc, Except.isOk, Except.toBool]
      | ok new_by =>
          simp only [hp, hc]
          split
          · split
            · simp [Except.isOk, Except.toBool]
            · simp [Except.isOk, Except.toBool]
          · simp [Except.isOk, Except.toBool]

/-- C4.  Idempotence fails in the strongest possible way: even the
identical-inputs call with both sets empty (the shape of
`test_generate_message_texts_empty`, which expects `([], aux)`) raises
`NameError` instead of returning zero events and an unchanged pending
map. -/
theorem c4_idempotent_empty_call_raises :
    generate_message_texts [] [] none = .error (PyErr.nameError nameOldAlerts) := rfl

/-- C6.  The engine is not the pure function of `(previous, current,
state, now)` the claim describes: the source function has no `now`
parameter (its unreachable lines 147 and 150 read the ambient clock
`monotime()` with a hardcoded 60), and no call — here the identical
nonempty inputs the tests drive with `now=20` — produces a message list
at all. -/
theorem c6_identical_inputs_call_raises :
    generate_message_texts [watchdogAlert] [watchdogAlert] none =
      .error (PyErr.nameError nameOldAlerts) := rfl

/-- C9.  The fixed closed/short-lived/opened output ordering is dead
code: on a mixed input (one alert closing, one staying) the call raises
`NameError` before the three mention lists of source lines 134-136 are
even created. -/
theorem c9_ordering_call_raises :
    generate_message_texts [watchdogAlert, secondAlert] [secondAlert] none =
      .error (PyErr.nameError nameOldAlerts) := rfl

/-- C10.  The at-most-three joined non-empty message strings shape is
likewise dead code (source lines 154-160 are unreachable): a call with
two newly opened alerts raises `NameError` instead of returning any
message list. -/
theorem c10_output_shape_call_raises :
    generate_message_texts [] [watchdogAlert, secondAlert] none =
      .error (PyErr.nameError nameOldAlerts) := rfl
